import Mathlib

/-!
# Verification of the usbipd-python binding store, device lookup and CLI layer

Shallow embedding of `binding_configuration.py`, `usb_device.py` and `usbipd.py`.

Conventions of the embedding:
* Python strings are Lean `String`s; the character sequence of a string is its
  `.data` list.  A Python `x.split(sep)[0]` is `splitHead`.
* `usb.core.Device` objects are `LiveDevice` records holding exactly the
  attributes the translated code reads.  `usb.util.get_string` results are
  `Option String`: `none` models a raised `USBError`/`ValueError`.
* The XML configuration file of `BindingConfiguration` is the list of its
  `<device>` elements, in document order.  Operations return a `WriteResult`
  whose `written` field is the argument passed to `_write_config`, `none`
  meaning `_write_config` was never invoked, so the file is untouched.
* Fallible Python code (`raise`) is `Option`/`Except`.
-/

/-- The NUL character `"\x00"`. -/
def nulChar : Char := Char.ofNat 0

/-- Python `value.split(sep)[0]` on a character sequence: the segment before
the first occurrence of `sep` (the whole sequence when `sep` is absent). -/
def splitHead (sep : Char) : List Char → List Char
  | [] => []
  | c :: cs => if c = sep then [] else c :: splitHead sep cs

/-- Python `value.split("\x00")[0]` on a string. -/
def splitNulHead (s : String) : String :=
  ⟨splitHead nulChar s.data⟩

/-- `usbipd._clean_usb_string`: `if "\x00" in value: return value.split("\x00")[0]`,
otherwise return `value` unchanged. -/
def clean_usb_string (value : String) : String :=
  if nulChar ∈ value.data then splitNulHead value else value

/-- The serial cleaning done inline in `command_bind` / `command_unbind`:
`if serial_number: serial_number = serial_number.split("\x00")[0]`. -/
def clean_serial (s : String) : String :=
  if s ≠ "" then splitNulHead s else s

/-- Python `f"{n:04x}"`: lowercase hex, zero padded to width 4. -/
def to_hex4 (n : Nat) : String :=
  let s := Nat.toDigits 16 n
  ⟨List.replicate (4 - s.length) '0' ++ s⟩

/-- Value of one hexadecimal digit, upper or lower case. -/
def hex_digit_val (c : Char) : Option Nat :=
  if '0' ≤ c ∧ c ≤ '9' then some (c.toNat - '0'.toNat)
  else if 'a' ≤ c ∧ c ≤ 'f' then some (c.toNat - 'a'.toNat + 10)
  else if 'A' ≤ c ∧ c ≤ 'F' then some (c.toNat - 'A'.toNat + 10)
  else none

/-- Python `int(s, 16)` on the unsigned hex strings this program produces and
stores (`f"{...:04x}"` output); `none` models the `ValueError` raised on any
other input.  Sign, whitespace and `0x` forms never produced by the program
are not modelled. -/
def int16? (s : String) : Option Nat :=
  if s.data.isEmpty then none
  else s.data.foldl
    (fun acc c =>
      match acc, hex_digit_val c with
      | some a, some v => some (16 * a + v)
      | _, _ => none)
    (some 0)

/-- Value of one decimal digit. -/
def dec_digit_val (c : Char) : Option Nat :=
  if '0' ≤ c ∧ c ≤ '9' then some (c.toNat - '0'.toNat) else none

/-- Python `int(s)` on the unsigned decimal strings reaching it here; `none`
models the `ValueError` raised on any other input (in particular on `"4.3"`). -/
def int10? (s : String) : Option Nat :=
  if s.data.isEmpty then none
  else s.data.foldl
    (fun acc c =>
      match acc, dec_digit_val c with
      | some a, some v => some (10 * a + v)
      | _, _ => none)
    (some 0)

/-- Python `str.split(sep)` for a one-character separator. -/
def split_on_char (sep : Char) : List Char → List (List Char)
  | [] => [[]]
  | c :: cs =>
    if c = sep then [] :: split_on_char sep cs
    else
      match split_on_char sep cs with
      | [] => [[c]]
      | r :: rs => (c :: r) :: rs

/-- A connected USB device as seen through pyusb, holding exactly the
attributes the translated code reads.  `portNumber`/`portNumbers` model
`device.port_number` (`0` for a falsy `None`) and `device.port_numbers`
(`[]` for a falsy `None`/empty tuple).  The `…String` fields are the
`usb.util.get_string` results; `none` models a raised `USBError`/`ValueError`. -/
structure LiveDevice where
  bus : Nat
  portNumber : Nat
  portNumbers : List Nat
  idVendor : Nat
  idProduct : Nat
  iManufacturer : Nat
  iProduct : Nat
  iSerialNumber : Nat
  manufacturerString : Option String
  productString : Option String
  serialString : Option String
deriving DecidableEq

/-- `".".join(str(p) for p in device.port_numbers)`. -/
def port_path (ports : List Nat) : String :=
  String.intercalate "." (ports.map toString)

/-- Bus-id synthesis, duplicated verbatim at the end of
`usbipd.get_usb_device_info` and of `usbipd._find_device_by_binding`:
`f"{device.bus}-{port_path}"` when `device.port_numbers` is truthy,
else `f"{device.bus}-0"`. -/
def bus_id_of (bus : Nat) (ports : List Nat) : String :=
  match ports with
  | [] => toString bus ++ "-0"
  | _ => toString bus ++ "-" ++ port_path ports

/-- The dictionary returned by `usbipd.get_usb_device_info` and (with
different field contents) by `USBDevice.get_basic_info`. -/
structure DeviceInfo where
  bus_id : String
  vendor_id : String
  product_id : String
  manufacturer : String
  product : String
  serial_number : String
deriving DecidableEq

/-- `usbipd.get_usb_device_info`: descriptor strings are cleaned with
`_clean_usb_string`; a missing index or a read failure yields `"Unknown"`
(manufacturer, product) or `""` (serial). -/
def get_usb_device_info (d : LiveDevice) : DeviceInfo where
  bus_id := bus_id_of d.bus d.portNumbers
  vendor_id := to_hex4 d.idVendor
  product_id := to_hex4 d.idProduct
  manufacturer :=
    if d.iManufacturer ≠ 0 then (d.manufacturerString.map clean_usb_string).getD "Unknown"
    else "Unknown"
  product :=
    if d.iProduct ≠ 0 then (d.productString.map clean_usb_string).getD "Unknown"
    else "Unknown"
  serial_number :=
    if d.iSerialNumber ≠ 0 then (d.serialString.map clean_usb_string).getD ""
    else ""

/-- `USBDevice.get_basic_info`: raw descriptor strings, defaulting to `""`
when the index is 0 or the read raises. -/
def get_basic_info (busId : String) (d : LiveDevice) : DeviceInfo where
  bus_id := busId
  vendor_id := to_hex4 d.idVendor
  product_id := to_hex4 d.idProduct
  manufacturer := if d.iManufacturer ≠ 0 then d.manufacturerString.getD "" else ""
  product := if d.iProduct ≠ 0 then d.productString.getD "" else ""
  serial_number := if d.iSerialNumber ≠ 0 then d.serialString.getD "" else ""

/-- The two exceptions `USBDevice._find_device_by_bus_id` raises. -/
inductive UsbLookupError where
  | valueError
  | lookupError
deriving DecidableEq

/-- The parsing step of `USBDevice._find_device_by_bus_id`:
`bus, port = bus_id.split("-"); int(bus); int(port)` — `none` models the
`ValueError` (wrong number of `-`-separated parts, or a non-decimal part). -/
def parse_bus_id (busId : String) : Option (Nat × Nat) :=
  match split_on_char '-' busId.data with
  | [busChars, portChars] =>
    match int10? ⟨busChars⟩, int10? ⟨portChars⟩ with
    | some b, some p => some (b, p)
    | _, _ => none
  | _ => none

/-- `USBDevice._find_device_by_bus_id`: parse the bus id, then return the
first connected device with `device.bus == target_bus` and
`(device.port_number or 0) == target_port`. -/
def find_device_by_bus_id (busId : String) (devices : List LiveDevice) :
    Except UsbLookupError LiveDevice :=
  match parse_bus_id busId with
  | none => .error .valueError
  | some (tb, tp) =>
    match devices.find? (fun d => d.bus == tb && d.portNumber == tp) with
    | some d => .ok d
    | none => .error .lookupError

/-- One `<device>` element of the `bindings.xml` file managed by
`binding_configuration.py`, i.e. one entry of `get_all_bindings`' result. -/
structure BindingEntry where
  bus_id : String
  vendor_id : String
  product_id : String
deriving DecidableEq

/-- Result of a store operation: `ok` is the boolean the Python method
returns, `written` is the bindings list handed to `_write_config`
(`none` when `_write_config` is not invoked, so the file is untouched). -/
structure WriteResult where
  ok : Bool
  written : Option (List BindingEntry)
deriving DecidableEq

namespace BindingConfiguration

/-- `BindingConfiguration.add_binding` (src/binding_configuration.py:68-98):
return `False` without writing when some `<device>` has the same `bus_id`;
otherwise append a new element and write the file. -/
def add_binding (file : List BindingEntry) (bus_id vendor_id product_id : String) :
    WriteResult :=
  if file.any (fun d => d.bus_id == bus_id) then ⟨false, none⟩
  else ⟨true, some (file ++ [⟨bus_id, vendor_id, product_id⟩])⟩

/-- The loop of `BindingConfiguration.remove_binding`: delete the first
`<device>` whose `bus_id` matches, returning the file to write; `none` when
no element matches. -/
def remove_first (bus_id : String) : List BindingEntry → Option (List BindingEntry)
  | [] => none
  | d :: ds =>
    if d.bus_id == bus_id then some ds
    else (remove_first bus_id ds).map (d :: ·)

/-- `BindingConfiguration.remove_binding` (src/binding_configuration.py:100-122):
remove the first matching element and write, returning `True`; return `False`
without writing when nothing matches. -/
def remove_binding (file : List BindingEntry) (bus_id : String) : WriteResult :=
  match remove_first bus_id file with
  | some f2 => ⟨true, some f2⟩
  | none => ⟨false, none⟩

/-- `BindingConfiguration.get_binding` (src/binding_configuration.py:124-144):
first `<device>` element whose `bus_id` attribute equals the argument. -/
def get_binding (file : List BindingEntry) (bus_id : String) : Option BindingEntry :=
  file.find? (fun d => d.bus_id == bus_id)

/-- `BindingConfiguration.get_all_bindings` (src/binding_configuration.py:146-159). -/
def get_all_bindings (file : List BindingEntry) : List BindingEntry :=
  file

/-- `BindingConfiguration.is_bound` (src/binding_configuration.py:161-171):
`get_binding(bus_id) is not None`. -/
def is_bound (file : List BindingEntry) (bus_id : String) : Bool :=
  (get_binding file bus_id).isSome

/-- The configuration file on disk after an operation: the written list when
`_write_config` ran, the unchanged input file otherwise. -/
def file_after (file : List BindingEntry) (r : WriteResult) : List BindingEntry :=
  r.written.getD file

end BindingConfiguration

/-- A binding as `usbipd.py` consumes it: the dictionary with keys
`vendor_id`, `product_id`, `serial_number` (hex strings and a possibly empty
serial).  `_find_device_by_binding` reads it with
`binding.get("serial_number", "")`. -/
structure Binding where
  vendor_id : String
  product_id : String
  serial_number : String
deriving DecidableEq

namespace SpecStore

/-- `BindingConfiguration.get_all_bindings()` as `usbipd.command_start`
consumes its result: the stored bindings, read through
`binding["vendor_id"]`, `binding["product_id"]` and
`binding.get("serial_number", "")`.  This is the one store call in
`usbipd.py` whose signature the class of src/binding_configuration.py
provides compatibly. -/
def get_all_bindings (store : List Binding) : List Binding :=
  store

end SpecStore

/-- The serial read inside the device loop of `usbipd._find_device_by_binding`:
start from `""`; when `device.iSerialNumber` is truthy read the string
(exceptions leave `""`), and when that string is truthy truncate it at the
first NUL. -/
def device_serial (d : LiveDevice) : String :=
  if d.iSerialNumber ≠ 0 then
    match d.serialString with
    | none => ""
    | some s => if s ≠ "" then splitNulHead s else s
  else ""

/-- The `for device in devices` loop of `usbipd._find_device_by_binding`:
skip devices whose vid/pid differ, return the first one whose serial equals
the target serial, with its synthesized bus id. -/
def match_loop (tvid tpid : Nat) (tserial : String) :
    List LiveDevice → Option (String × LiveDevice)
  | [] => none
  | d :: ds =>
    if d.idVendor != tvid || d.idProduct != tpid then match_loop tvid tpid tserial ds
    else if tserial == device_serial d then some (bus_id_of d.bus d.portNumbers, d)
    else match_loop tvid tpid tserial ds

/-- `usbipd._find_device_by_binding`: parse the stored hex vid/pid (a parse
failure is the uncaught `ValueError` of `int(_, 16)`), then scan the
connected devices for an exact `(vid, pid, serial)` match. -/
def find_device_by_binding (binding : Binding) (devices : List LiveDevice) :
    Except String (Option (String × LiveDevice)) :=
  match int16? binding.vendor_id, int16? binding.product_id with
  | some tvid, some tpid => .ok (match_loop tvid tpid binding.serial_number devices)
  | _, _ => .error "invalid literal for int() with base 16"

/-- The uncaught exceptions with which the CLI commands crash when their
store calls hit the `BindingConfiguration` class of
src/binding_configuration.py: `typeError` for a call that does not match the
legacy `bus_id`-keyed signature, `attributeError` for a method the class
does not define.  Neither is caught by the surrounding
`except (ValueError, LookupError)` clauses. -/
inductive PyError where
  | typeError
  | attributeError
deriving DecidableEq

/-- `usbipd.command_list`: prints the header, then `print_usb_devices`
(`file` is the configuration the freshly constructed `BindingConfiguration`
reads).  With no device connected the per-device loop never runs and the
command finishes with exit code 0; as soon as one device is listed, the call
`config.is_bound(vendor_id, product_id, serial_number)` does not match
`is_bound(self, bus_id)` of src/binding_configuration.py and raises an
uncaught `TypeError`. -/
def command_list (devices : List LiveDevice) (_file : List BindingEntry) :
    Except PyError (Nat × List DeviceInfo) :=
  if devices.isEmpty then .ok (0, devices.map get_usb_device_info)
  else .error .typeError

/-- `usbipd.command_bind`: the `USBDevice` lookup failures (`ValueError`,
`LookupError`) are caught and exit with code 1; with a device found, the
call `config.add_binding(vendor_id=…, product_id=…, serial_number=…)` does
not match `add_binding(self, bus_id, vendor_id, product_id)` of
src/binding_configuration.py (missing `bus_id`, unexpected `serial_number`)
and raises an uncaught `TypeError` before anything is stored. -/
def command_bind (busId : String) (devices : List LiveDevice)
    (file : List BindingEntry) : Except PyError (Nat × List BindingEntry) :=
  match find_device_by_bus_id busId devices with
  | .error _ => .ok (1, file)
  | .ok _ => .error .typeError

/-- `usbipd.command_unbind`: `--all` immediately calls
`config.clear_all_bindings()`, a method the `BindingConfiguration` class of
src/binding_configuration.py does not define — uncaught `AttributeError`,
nothing removed, nothing printed.  Without `--all`, a falsy bus id exits 1,
lookup failures are caught and exit 1, and with a device found the call
`config.remove_binding(vid, pid, serial)` does not match
`remove_binding(self, bus_id)` and raises an uncaught `TypeError`. -/
def command_unbind (busId : Option String) (unbindAll : Bool)
    (devices : List LiveDevice) (file : List BindingEntry) :
    Except PyError (Nat × List BindingEntry × List String) :=
  if unbindAll then .error .attributeError
  else
    match busId with
    | none => .ok (1, file, ["Error: --bus-id or --all is required."])
    | some bid =>
      if bid = "" then .ok (1, file, ["Error: --bus-id or --all is required."])
      else
        match find_device_by_bus_id bid devices with
        | .error _ => .ok (1, file, ["Error: lookup failed"])
        | .ok _ => .error .typeError

/-- The `device_id` string `usbipd.command_start` builds for messages:
`f"{vid}:{pid}"`, plus `f":{serial}"` when the serial is truthy. -/
def device_id_of (b : Binding) : String :=
  b.vendor_id ++ ":" ++ b.product_id ++
    (if b.serial_number ≠ "" then ":" ++ b.serial_number else "")

/-- The warning `usbipd.command_start` prints for a binding with no
currently connected matching device. -/
def warn_not_found (b : Binding) : String :=
  "Warning: Device " ++ device_id_of b ++ " not found"

/-- The `for binding in bindings` loop of `usbipd.command_start`: a binding
whose device is not found adds a warning and is skipped; a found one is
exported (`server.export_device` is modelled from the spec, §4.3: building
the export entry succeeds for a connected device).  An uncaught `ValueError`
from the hex parse aborts the loop.  Returns `(warnings, exported)` where
`exported` pairs the device-id message with the synthesized bus id. -/
def export_loop (devices : List LiveDevice) :
    List Binding → Except String (List String × List (String × String))
  | [] => .ok ([], [])
  | b :: bs =>
    match find_device_by_binding b devices with
    | .error e => .error e
    | .ok none =>
      match export_loop devices bs with
      | .error e => .error e
      | .ok (ws, es) => .ok (warn_not_found b :: ws, es)
    | .ok (some (bid, _)) =>
      match export_loop devices bs with
      | .error e => .error e
      | .ok (ws, es) => .ok (ws, (device_id_of b, bid) :: es)

/-- Outcome of `usbipd.command_start`: its exit code, the warnings printed,
and the exported devices. -/
structure StartOutcome where
  exitCode : Nat
  warnings : List String
  exported : List (String × String)
deriving DecidableEq

/-- `usbipd.command_start`: exit 1 when the store is empty; otherwise run the
export loop; exit 1 when nothing could be exported, else start the server
(modelled from the spec, §6: the foreground server run ends with exit
code 0 on graceful shutdown). -/
def command_start (store : List Binding) (devices : List LiveDevice) :
    Except String StartOutcome :=
  if store.isEmpty then .ok ⟨1, [], []⟩
  else
    match export_loop devices (SpecStore.get_all_bindings store) with
    | .error e => .error e
    | .ok (ws, es) => if es.isEmpty then .ok ⟨1, ws, es⟩ else .ok ⟨0, ws, es⟩

/-- A device at bus 1, port 3 (topology path `1-3`), vid:pid 0bda:8153,
serial `SN01`. -/
def sampleDev : LiveDevice where
  bus := 1
  portNumber := 3
  portNumbers := [3]
  idVendor := 0x0bda
  idProduct := 0x8153
  iManufacturer := 1
  iProduct := 2
  iSerialNumber := 3
  manufacturerString := some "Realtek"
  productString := some "USB 10/100/1000 LAN"
  serialString := some "SN01"

/-- A device behind a hub: bus 1, ports 4.3, no serial. -/
def sampleDeepDev : LiveDevice where
  bus := 1
  portNumber := 3
  portNumbers := [4, 3]
  idVendor := 0x046d
  idProduct := 0xc52b
  iManufacturer := 1
  iProduct := 2
  iSerialNumber := 0
  manufacturerString := some "Logitech"
  productString := some "USB Receiver"
  serialString := none

/-- A root device reporting no port numbers (bus 3). -/
def sampleRootDev : LiveDevice where
  bus := 3
  portNumber := 0
  portNumbers := []
  idVendor := 0x05ac
  idProduct := 0x8006
  iManufacturer := 0
  iProduct := 0
  iSerialNumber := 0
  manufacturerString := none
  productString := none
  serialString := none

/-- The stored binding matching `sampleDev`. -/
def sampleBinding : Binding where
  vendor_id := "0bda"
  product_id := "8153"
  serial_number := "SN01"

/-- A stored binding matching no connected device. -/
def staleBinding : Binding where
  vendor_id := "dead"
  product_id := "beef"
  serial_number := ""

deriving instance DecidableEq for Except

/-! ## Helper lemmas -/

theorem splitHead_eq_takeWhile (sep : Char) (l : List Char) :
    splitHead sep l = l.takeWhile (fun c => c != sep) := by
  induction l with
  | nil => rfl
  | cons c cs ih =>
    by_cases h : c = sep
    · simp [splitHead, h, List.takeWhile_cons]
    · simp [splitHead, h, List.takeWhile_cons, ih]

theorem takeWhile_ne_eq_self (x : Char) (l : List Char) (h : x ∉ l) :
    l.takeWhile (fun c => c != x) = l := by
  induction l with
  | nil => rfl
  | cons c cs ih =>
    rw [List.mem_cons] at h
    push_neg at h
    have hc : (c != x) = true := by
      simp [bne]
      exact fun hcx => h.1 hcx.symm
    rw [List.takeWhile_cons, hc]
    simp [ih h.2]

theorem not_mem_takeWhile_ne (x : Char) (l : List Char) :
    x ∉ l.takeWhile (fun c => c != x) := by
  intro h
  have := List.mem_takeWhile_imp h
  simp at this

theorem is_bound_eq_any (f : List BindingEntry) (b : String) :
    BindingConfiguration.is_bound f b = f.any (fun d => d.bus_id == b) := by
  induction f with
  | nil => rfl
  | cons d ds ih =>
    unfold BindingConfiguration.is_bound BindingConfiguration.get_binding at *
    rw [List.find?_cons, List.any_cons]
    cases h : d.bus_id == b
    · simpa [h] using ih
    · simp [h]

theorem any_key_false_of_not_mem (f : List BindingEntry) (b : String)
    (h : b ∉ f.map (·.bus_id)) : f.any (fun d => d.bus_id == b) = false := by
  induction f with
  | nil => rfl
  | cons d ds ih =>
    rw [List.map_cons, List.mem_cons] at h
    push_neg at h
    have hd : (d.bus_id == b) = false := by
      simp
      exact fun hdb => h.1 hdb.symm
    simp [List.any_cons, hd, ih h.2]

theorem remove_first_none_iff (b : String) (f : List BindingEntry) :
    BindingConfiguration.remove_first b f = none ↔
      f.any (fun d => d.bus_id == b) = false := by
  induction f with
  | nil => simp [BindingConfiguration.remove_first]
  | cons d ds ih =>
    cases h : d.bus_id == b
    · simp [BindingConfiguration.remove_first, h, ih, List.any_cons]
    · simp [BindingConfiguration.remove_first, h, List.any_cons]

theorem is_bound_remove_first (b : String) (f f2 : List BindingEntry)
    (hnd : (f.map (·.bus_id)).Nodup)
    (h : BindingConfiguration.remove_first b f = some f2) :
    BindingConfiguration.is_bound f2 b = false := by
  induction f generalizing f2 with
  | nil => simp [BindingConfiguration.remove_first] at h
  | cons d ds ih =>
    rw [List.map_cons, List.nodup_cons] at hnd
    unfold BindingConfiguration.remove_first at h
    split at h
    next hd =>
      simp only [Option.some_inj] at h
      subst h
      have hb : d.bus_id = b := by simpa using hd
      rw [is_bound_eq_any]
      exact any_key_false_of_not_mem _ _ (hb ▸ hnd.1)
    next hd =>
      rw [Option.map_eq_some'] at h
      obtain ⟨ds2, hds2, rfl⟩ := h
      have hrec := ih ds2 hnd.2 hds2
      have hdb : (d.bus_id == b) = false := by
        simpa using hd
      rw [is_bound_eq_any] at hrec ⊢
      simp [List.any_cons, hdb, hrec]

theorem match_loop_some (tvid tpid : Nat) (ts : String) (ds : List LiveDevice)
    (bid : String) (d : LiveDevice)
    (h : match_loop tvid tpid ts ds = some (bid, d)) :
    d.idVendor = tvid ∧ d.idProduct = tpid ∧ device_serial d = ts ∧
      bid = bus_id_of d.bus d.portNumbers := by
  induction ds with
  | nil => simp [match_loop] at h
  | cons x xs ih =>
    unfold match_loop at h
    split at h
    · exact ih h
    · next hvp =>
      split at h
      · next hs =>
        simp only [Option.some_inj, Prod.mk.injEq] at h
        obtain ⟨hb, hd⟩ := h
        subst hd
        have hvp2 : x.idVendor = tvid ∧ x.idProduct = tpid := by
          simpa using hvp
        have hs2 : ts = device_serial x := by simpa using hs
        exact ⟨hvp2.1, hvp2.2, hs2.symm, hb.symm⟩
      · exact ih h

theorem export_loop_ok (devices : List LiveDevice) (store : List Binding)
    (ws : List String) (es : List (String × String))
    (h : export_loop devices store = .ok (ws, es)) :
    ws = (store.filter (fun b =>
        decide (find_device_by_binding b devices = .ok none))).map warn_not_found ∧
    es = store.filterMap (fun b =>
        match find_device_by_binding b devices with
        | .ok (some (bid, _)) => some (device_id_of b, bid)
        | _ => none) := by
  induction store generalizing ws es with
  | nil =>
    simp only [export_loop, Except.ok.injEq, Prod.mk.injEq] at h
    simp [← h.1, ← h.2]
  | cons b bs ih =>
    unfold export_loop at h
    cases hf : find_device_by_binding b devices with
    | error e => rw [hf] at h; simp at h
    | ok o =>
      rw [hf] at h
      cases o with
      | none =>
        cases hrec : export_loop devices bs with
        | error e => rw [hrec] at h; simp at h
        | ok p =>
          obtain ⟨ws2, es2⟩ := p
          rw [hrec] at h
          simp only [Except.ok.injEq, Prod.mk.injEq] at h
          obtain ⟨hw, he⟩ := h
          obtain ⟨ihw, ihe⟩ := ih ws2 es2 hrec
          subst hw he
          constructor
          · rw [List.filter_cons]
            simp [hf, ihw]
          · rw [List.filterMap_cons]
            simp [hf, ihe]
      | some pr =>
        obtain ⟨bid, dev⟩ := pr
        cases hrec : export_loop devices bs with
        | error e => rw [hrec] at h; simp at h
        | ok p =>
          obtain ⟨ws2, es2⟩ := p
          rw [hrec] at h
          simp only [Except.ok.injEq, Prod.mk.injEq] at h
          obtain ⟨hw, he⟩ := h
          obtain ⟨ihw, ihe⟩ := ih ws2 es2 hrec
          subst hw he
          constructor
          · rw [List.filter_cons]
            simp [hf, ihw]
          · rw [List.filterMap_cons]
            simp [hf, ihe]

theorem command_start_ok (store : List Binding) (devices : List LiveDevice)
    (ws : List String) (es : List (String × String))
    (hne : store ≠ [])
    (h : export_loop devices store = .ok (ws, es)) :
    command_start store devices = .ok ⟨if es.isEmpty then 1 else 0, ws, es⟩ := by
  match store, hne with
  | b :: bs, _ =>
    unfold command_start SpecStore.get_all_bindings
    rw [h]
    simp only [List.isEmpty_cons]
    by_cases he : es.isEmpty <;> simp [he]

/-! ## Claim theorems -/

/-- C9: for every input string, `_clean_usb_string` returns the prefix of the
string up to but excluding its first NUL character, returns the string
unchanged when it contains no NUL, and its result never contains a NUL. -/
theorem c9_clean_usb_string_truncates_at_nul (s : String) :
    (clean_usb_string s).data = s.data.takeWhile (fun c => c != nulChar) ∧
    nulChar ∉ (clean_usb_string s).data ∧
    (nulChar ∉ s.data → clean_usb_string s = s) := by
  have h1 : (clean_usb_string s).data = s.data.takeWhile (fun c => c != nulChar) := by
    unfold clean_usb_string
    by_cases h : nulChar ∈ s.data
    · simp [h, splitNulHead, splitHead_eq_takeWhile]
    · simp only [h, if_false]
      rw [takeWhile_ne_eq_self nulChar s.data h]
  refine ⟨h1, ?_, ?_⟩
  · rw [h1]
    exact not_mem_takeWhile_ne _ _
  · intro h
    simp [clean_usb_string, h]

/-- C9 witness: a string without NUL is returned unchanged; one with an
embedded NUL is truncated before it. -/
theorem c9_clean_usb_string_truncates_at_nul_witness :
    clean_usb_string "Realtek" = "Realtek" ∧
    (clean_usb_string "AB\x00garbage").data =
      ("AB\x00garbage" : String).data.takeWhile (fun c => c != nulChar) := by
  constructor
  · exact (c9_clean_usb_string_truncates_at_nul "Realtek").2.2 (by decide)
  · exact (c9_clean_usb_string_truncates_at_nul "AB\x00garbage").1

/-- C1 (code bug witness): the store of src/binding_configuration.py keys on
`bus_id`, not on `(vendor_id, product_id, serial_number)`: a second entry
with the identical `(vid, pid)` identity but another bus id is accepted by
`add_binding`, and membership for that identity at another bus id is `False`
while the claimed durable identity is the same (the store records no serial
at all). -/
theorem c1_store_keys_on_busid :
    (BindingConfiguration.add_binding
      ([⟨"1-3", "1234", "5678"⟩] : List BindingEntry) "2-7" "1234" "5678").ok = true ∧
    BindingConfiguration.is_bound ([⟨"1-3", "1234", "5678"⟩] : List BindingEntry) "2-7" = false ∧
    BindingConfiguration.is_bound ([⟨"1-3", "1234", "5678"⟩] : List BindingEntry) "1-3" = true := by
  decide

/-- C3 (code bug witness): the `list` command synthesizes the bus id `"1-4.3"`
for a device at bus 1, ports 4.3, but `USBDevice._find_device_by_bus_id` —
the lookup `bind`/`unbind` use — raises `ValueError` on `"1-4.3"` because it
unpacks exactly one `-` pair and calls `int("4.3")`. -/
theorem c3_multiport_busid_rejected :
    (get_usb_device_info sampleDeepDev).bus_id = "1-4.3" ∧
    parse_bus_id "1-4.3" = none ∧
    find_device_by_bus_id "1-4.3" [sampleDeepDev] = .error .valueError := by
  decide

/-- C8: `add_binding` and `remove_binding` never touch the configuration file
when they return `False`: `add_binding` writes exactly when no binding with
the same `bus_id` key exists, and `remove_binding` writes exactly when a
matching binding was found (and then deleted). -/
theorem c8_no_write_on_false (f : List BindingEntry) (b v p k : String) :
    ((BindingConfiguration.add_binding f b v p).ok = false ↔
      (BindingConfiguration.add_binding f b v p).written = none) ∧
    ((BindingConfiguration.add_binding f b v p).ok = false ↔
      f.any (fun d => d.bus_id == b) = true) ∧
    ((BindingConfiguration.remove_binding f k).ok = false ↔
      (BindingConfiguration.remove_binding f k).written = none) ∧
    ((BindingConfiguration.remove_binding f k).ok = true ↔
      BindingConfiguration.is_bound f k = true) := by
  refine ⟨?_, ?_, ?_, ?_⟩
  · unfold BindingConfiguration.add_binding
    by_cases h : f.any (fun d => d.bus_id == b) <;> simp [h]
  · unfold BindingConfiguration.add_binding
    by_cases h : f.any (fun d => d.bus_id == b) <;> simp [h]
  · unfold BindingConfiguration.remove_binding
    cases h : BindingConfiguration.remove_first k f <;> simp [h]
  · unfold BindingConfiguration.remove_binding
    rw [is_bound_eq_any]
    cases h : BindingConfiguration.remove_first k f with
    | none => simp [h, (remove_first_none_iff k f).mp h]
    | some f2 =>
      have hany : f.any (fun d => d.bus_id == k) = true := by
        cases hq : f.any (fun d => d.bus_id == k)
        · have := (remove_first_none_iff k f).mpr hq
          rw [this] at h
          simp at h
        · rfl
      simp [h, hany]

/-- C4: round-trip law of the binding store as implemented in
src/binding_configuration.py (whose key is the `bus_id` attribute; see C1):
immediately after a successful `add_binding` the membership check `is_bound`
on the added binding's key is `True`, and immediately after `remove_binding`
it is `False` — the latter on stores without duplicate keys, the invariant
`add_binding`'s existence check maintains. -/
theorem c4_store_roundtrip (f : List BindingEntry) (b v p k : String) :
    ((BindingConfiguration.add_binding f b v p).ok = true →
      BindingConfiguration.is_bound
        (BindingConfiguration.file_after f (BindingConfiguration.add_binding f b v p)) b = true) ∧
    ((f.map (·.bus_id)).Nodup →
      BindingConfiguration.is_bound
        (BindingConfiguration.file_after f (BindingConfiguration.remove_binding f k)) k = false) := by
  constructor
  · intro hok
    unfold BindingConfiguration.add_binding at hok ⊢
    by_cases h : f.any (fun d => d.bus_id == b)
    · simp [h] at hok
    · simp only [h, if_false, Bool.false_eq_true]
      rw [BindingConfiguration.file_after, is_bound_eq_any]
      simp [List.any_append]
  · intro hnd
    unfold BindingConfiguration.remove_binding
    cases h : BindingConfiguration.remove_first k f with
    | none =>
      rw [BindingConfiguration.file_after]
      simp only [Option.getD_none]
      rw [is_bound_eq_any]
      exact (remove_first_none_iff k f).mp h
    | some f2 =>
      rw [BindingConfiguration.file_after]
      simp only [Option.getD_some]
      exact is_bound_remove_first k f f2 hnd h

/-- C4 witness: the round trip on a concrete one-entry store. -/
theorem c4_store_roundtrip_witness :
    BindingConfiguration.is_bound
      (BindingConfiguration.file_after []
        (BindingConfiguration.add_binding [] "1-3" "1234" "5678")) "1-3" = true ∧
    BindingConfiguration.is_bound
      (BindingConfiguration.file_after ([⟨"1-3", "1234", "5678"⟩] : List BindingEntry)
        (BindingConfiguration.remove_binding
          ([⟨"1-3", "1234", "5678"⟩] : List BindingEntry) "1-3")) "1-3" = false := by
  constructor
  · exact (c4_store_roundtrip [] "1-3" "1234" "5678" "x").1 (by decide)
  · exact (c4_store_roundtrip ([⟨"1-3", "1234", "5678"⟩] : List BindingEntry)
      "b" "v" "p" "1-3").2 (by decide)

/-- C2 (code bug witness): `unbind --all` invokes
`config.clear_all_bindings()`, but the `BindingConfiguration` class of
src/binding_configuration.py defines no such method: every `--all` run
crashes with `AttributeError` before anything is removed or printed, so the
store is not cleared and no count is reported to the user. -/
theorem c2_unbind_all_raises_attribute_error (devices : List LiveDevice)
    (file : List BindingEntry) (busId : Option String) :
    command_unbind busId true devices file = .error .attributeError :=
  rfl

/-- C6: `_find_device_by_binding` matches a connected device only on exact
equality of vendor id, product id and serial string; in particular a binding
with an empty serial matches only a device whose read serial is empty. -/
theorem c6_match_requires_serial_equality (b : Binding) (devices : List LiveDevice)
    (bid : String) (d : LiveDevice)
    (h : find_device_by_binding b devices = .ok (some (bid, d))) :
    int16? b.vendor_id = some d.idVendor ∧ int16? b.product_id = some d.idProduct ∧
    device_serial d = b.serial_number ∧
    (b.serial_number = "" → device_serial d = "") := by
  unfold find_device_by_binding at h
  cases hv : int16? b.vendor_id with
  | none => cases hq : int16? b.product_id <;> rw [hv, hq] at h <;> simp at h
  | some tvid =>
    cases hq : int16? b.product_id with
    | none => rw [hv, hq] at h; simp at h
    | some tpid =>
      rw [hv, hq] at h
      simp only [Except.ok.injEq] at h
      obtain ⟨h1, h2, h3, _⟩ := match_loop_some tvid tpid b.serial_number devices bid d h
      refine ⟨?_, ?_, h3, fun he => by rw [h3, he]⟩
      · rw [h1]
      · rw [h2]

/-- C6 witness: the binding `0bda:8153:SN01` resolves to `sampleDev` and the
theorem's conclusions hold there. -/
theorem c6_match_requires_serial_equality_witness :
    int16? sampleBinding.vendor_id = some sampleDev.idVendor ∧
    int16? sampleBinding.product_id = some sampleDev.idProduct ∧
    device_serial sampleDev = sampleBinding.serial_number ∧
    (sampleBinding.serial_number = "" → device_serial sampleDev = "") :=
  c6_match_requires_serial_equality sampleBinding [sampleDev] "1-3" sampleDev (by decide)

/-- C7: at server start, every stored binding with no connected matching
device contributes exactly its warning and is omitted from the export set;
every binding whose device is found is exported; the server proceeds (exit
code 0) exactly when the export set is nonempty. -/
theorem c7_start_warns_and_omits_missing (store : List Binding)
    (devices : List LiveDevice) (ws : List String) (es : List (String × String))
    (hne : store ≠ [])
    (h : export_loop devices store = .ok (ws, es)) :
    command_start store devices = .ok ⟨if es.isEmpty then 1 else 0, ws, es⟩ ∧
    ws = (store.filter (fun b =>
        decide (find_device_by_binding b devices = .ok none))).map warn_not_found ∧
    es = store.filterMap (fun b =>
        match find_device_by_binding b devices with
        | .ok (some (bid, _)) => some (device_id_of b, bid)
        | _ => none) :=
  ⟨command_start_ok store devices ws es hne h,
   (export_loop_ok devices store ws es h).1,
   (export_loop_ok devices store ws es h).2⟩

/-- C7 witness: with one stale and one connected binding, the stale one is
warned about and omitted, the connected one exported, and the server starts. -/
theorem c7_start_warns_and_omits_missing_witness :
    command_start [sampleBinding, staleBinding] [sampleDev] =
      .ok ⟨if ([(device_id_of sampleBinding, "1-3")] : List (String × String)).isEmpty
            then 1 else 0,
          [warn_not_found staleBinding], [(device_id_of sampleBinding, "1-3")]⟩ :=
  (c7_start_warns_and_omits_missing [sampleBinding, staleBinding] [sampleDev]
    [warn_not_found staleBinding] [(device_id_of sampleBinding, "1-3")]
    (by decide) (by decide)).1

/-- C10: a device reporting no port numbers is assigned the synthesized bus
id `"<bus>-0"`, both by `get_usb_device_info` (device listing) and in the bus
id `_find_device_by_binding` returns (binding resolution). -/
theorem c10_no_ports_busid (d : LiveDevice) (b : Binding) (devices : List LiveDevice)
    (bid : String) (dev : LiveDevice) :
    (d.portNumbers = [] → (get_usb_device_info d).bus_id = toString d.bus ++ "-0") ∧
    (find_device_by_binding b devices = .ok (some (bid, dev)) → dev.portNumbers = [] →
      bid = toString dev.bus ++ "-0") := by
  constructor
  · intro hp
    simp [get_usb_device_info, bus_id_of, hp]
  · intro h hp
    unfold find_device_by_binding at h
    cases hv : int16? b.vendor_id with
    | none => cases hq : int16? b.product_id <;> rw [hv, hq] at h <;> simp at h
    | some tvid =>
      cases hq : int16? b.product_id with
      | none => rw [hv, hq] at h; simp at h
      | some tpid =>
        rw [hv, hq] at h
        simp only [Except.ok.injEq] at h
        have hb := (match_loop_some tvid tpid b.serial_number devices bid dev h).2.2.2
        rw [hb, hp]
        rfl

/-- C10 witness: the root device at bus 3 with no port numbers gets bus id
`"3-0"` in the listing, and resolving its binding returns that same bus id. -/
theorem c10_no_ports_busid_witness :
    (get_usb_device_info sampleRootDev).bus_id = toString sampleRootDev.bus ++ "-0" ∧
    ("3-0" : String) = toString sampleRootDev.bus ++ "-0" := by
  constructor
  · exact (c10_no_ports_busid sampleRootDev ⟨"05ac", "8006", ""⟩ [sampleRootDev]
      "3-0" sampleRootDev).1 rfl
  · exact (c10_no_ports_busid sampleRootDev ⟨"05ac", "8006", ""⟩ [sampleRootDev]
      "3-0" sampleRootDev).2 (by decide) rfl

/-- C5 (code bug witness): the success paths do not exit 0 — they crash on
the mismatched store calls of src/binding_configuration.py: with the device
at `1-3` connected, `bind` and `unbind --bus-id 1-3` raise `TypeError`,
`unbind --all` raises `AttributeError`, and `list` raises `TypeError` as
soon as one device is listed; an error path such as the invalid bus id
`1-4.3` still exits 1. -/
theorem c5_success_paths_crash :
    command_bind "1-3" [sampleDev] [] = .error .typeError ∧
    command_unbind (some "1-3") false [sampleDev] [] = .error .typeError ∧
    command_unbind none true [sampleDev] [] = .error .attributeError ∧
    command_list [sampleDev] [] = .error .typeError ∧
    command_list [] [] = .ok (0, []) ∧
    command_bind "1-4.3" [sampleDeepDev] [] = .ok (1, []) := by
  decide
